import Mathlib

/-!
Verification of the EMI calculation engine (`src/app/services/calculationService.ts`,
class `EMICalculationService`).  The source performs all arithmetic with the
Decimal.js fixed-precision decimal library (28 significant digits, round half up)
and converts to a native number only at each function boundary; we embed the
arithmetic exactly over the rationals `ℚ`, the idealisation of that decimal
policy.  Every numeric literal of the source (`0.8`, `0.35`, `0.05`, ...) is a
JavaScript decimal literal that Decimal.js reads exactly, so it appears here as
the corresponding rational.  The repayment tenure is kept as a natural number of
months: the engine's contract restricts it to positive integers, and
`Decimal.pow` with an integer exponent is the exact integer power that `^` on
`ℚ` computes.
-/

namespace EMICalc

/-- `Number.MAX_SAFE_INTEGER`, which `calculateIncomeTax` substitutes for the
`Infinity` upper bound of the last tax bracket. -/
def maxSafeInteger : ℚ := 9007199254740991

/-- A progressive tax bracket: `max = none` models the `Infinity` upper bound of
the last bracket in the source table. -/
structure TaxBracket where
  min : ℚ
  max : Option ℚ
  rate : ℚ

/-- The static tax bracket table `EMICalculationService.taxBrackets`. -/
def taxBrackets : List TaxBracket :=
  [ ⟨0, some 720000, 0⟩,
    ⟨720000, some 1200000, 55/10⟩,
    ⟨1200000, some 1800000, 8⟩,
    ⟨1800000, some 2400000, 12⟩,
    ⟨2400000, none, 15⟩ ]

/-- `calculateIncomeTax`: fold over the bracket table, accumulating
`min(income - bracketMin, bracketMax - bracketMin) * rate / 100` for every
bracket whose lower bound the income exceeds, where an `Infinity` upper bound is
replaced by `Number.MAX_SAFE_INTEGER`; the accumulated annual tax is divided by
12 for the monthly figure. -/
def calculateIncomeTax (annualIncome : ℚ) : ℚ :=
  let tax := taxBrackets.foldl
    (fun tax b =>
      let bracketMax := b.max.getD maxSafeInteger
      if annualIncome > b.min then
        tax + min (annualIncome - b.min) (bracketMax - b.min) * b.rate / 100
      else tax) 0
  tax / 12

/-- `calculateEMI(principal, rate, tenure)`: monthly rate `r = rate/100/12`; if
`r = 0` the straight-line payment `principal / tenure`, otherwise the standard
amortization `P * r * (1+r)^n / ((1+r)^n - 1)`. -/
def calculateEMI (principal rate : ℚ) (tenure : ℕ) : ℚ :=
  let monthlyRate := rate / 100 / 12
  if monthlyRate = 0 then
    principal / (tenure : ℚ)
  else
    let onePlusRPowerN := (monthlyRate + 1) ^ tenure
    principal * monthlyRate * onePlusRPowerN / (onePlusRPowerN - 1)

/-- `calculateGracePeriodPayment`: interest-only monthly payment
`principal * rate / 100 / 12`. -/
def calculateGracePeriodPayment (principal rate : ℚ) : ℚ :=
  principal * rate / 100 / 12

/-- `calculateBankFinanceAmount`: `totalProjectCost * (1 - equityPercentage/100)`. -/
def calculateBankFinanceAmount (totalProjectCost equityPercentage : ℚ) : ℚ :=
  totalProjectCost * (1 - equityPercentage / 100)

/-- `calculateEquityAmount`: `totalProjectCost * equityPercentage / 100`. -/
def calculateEquityAmount (totalProjectCost equityPercentage : ℚ) : ℚ :=
  totalProjectCost * equityPercentage / 100

/-- The `Scenario` union type: `'normal' | 'income_reduce'`. -/
inductive Scenario where
  | normal
  | income_reduce
deriving DecidableEq

/-- Numeric `FormData`: the borrower figures consumed by the engine.  The
repayment period is a number of months, restricted to integers as in the
engine's contract. -/
structure FormData where
  salary : ℚ
  rent : ℚ
  other : ℚ
  projectIncome : ℚ
  existingLoans : ℚ
  totalProjectCost : ℚ
  equityPercentage : ℚ
  rate : ℚ
  repaymentPeriod : ℕ
  gracePeriod : ℚ

/-- The four scenario-adjusted income streams returned by
`applyScenarioMultipliers`. -/
structure AdjustedIncomes where
  adjustedSalary : ℚ
  adjustedRent : ℚ
  adjustedOther : ℚ
  adjustedProjectIncome : ℚ

/-- `applyScenarioMultipliers`: multiply the four income fields by `0.8` in the
`income_reduce` scenario and by `1` otherwise. -/
def applyScenarioMultipliers (formData : FormData) (scenario : Scenario) :
    AdjustedIncomes :=
  let multiplier : ℚ := if scenario = Scenario.income_reduce then 8/10 else 1
  { adjustedSalary := formData.salary * multiplier
    adjustedRent := formData.rent * multiplier
    adjustedOther := formData.other * multiplier
    adjustedProjectIncome := formData.projectIncome * multiplier }

/-- The `Calculations` result record. -/
structure Calculations where
  totalIncome : ℚ
  totalExpenditure : ℚ
  totalProjectIncome : ℚ
  totalProjectExpenditure : ℚ
  netIncome : ℚ
  monthlyRepayment : ℚ
  afterGraceRepayment : ℚ
  gracePeriodRepayment : ℚ
  dscr : ℚ
  incomeTax : ℚ
  maintenanceCost : ℚ
  bankFinanceAmount : ℚ

/-- `performCalculations(formData, scenario, isAfterGrace)` on numeric form
data, mirroring the source line by line: scenario adjustment, total income,
expenditure at 35% above 25000 and 40% otherwise, grace-gated project income,
bank finance amount, the two repayment figures, maintenance cost, income tax on
the annualised total, project expenditure with the 20% buffer in the
`income_reduce` scenario, net income and the zero-guarded DSCR. -/
def performCalculations (formData : FormData) (scenario : Scenario)
    (isAfterGrace : Bool) : Calculations :=
  let adj := applyScenarioMultipliers formData scenario
  let totalIncome := adj.adjustedSalary + adj.adjustedRent + adj.adjustedOther
  let expenditureRate : ℚ := if totalIncome > 25000 then 35/100 else 40/100
  let totalExpenditure := totalIncome * expenditureRate
  let totalProjectIncome := if isAfterGrace then adj.adjustedProjectIncome else 0
  let bankFinanceAmount :=
    calculateBankFinanceAmount formData.totalProjectCost formData.equityPercentage
  let afterGraceRepayment :=
    calculateEMI bankFinanceAmount formData.rate formData.repaymentPeriod
  let gracePeriodRepayment :=
    calculateGracePeriodPayment bankFinanceAmount formData.rate
  let currentMonthlyRepayment :=
    if isAfterGrace then afterGraceRepayment else gracePeriodRepayment
  let maintenanceCost :=
    if adj.adjustedRent > 0 ∨ adj.adjustedProjectIncome > 0 then
      (adj.adjustedRent + (if isAfterGrace then adj.adjustedProjectIncome else 0))
        * (5/100)
    else 0
  let annualTotalIncome := (totalIncome + totalProjectIncome) * 12
  let monthlyIncomeTax := calculateIncomeTax annualTotalIncome
  let totalProjectExpenditure :=
    maintenanceCost + monthlyIncomeTax
      + (if scenario = Scenario.income_reduce then totalIncome * (20/100) else 0)
  let netIncome :=
    totalIncome - totalExpenditure + totalProjectIncome - totalProjectExpenditure
  let totalRepaymentObligation := formData.existingLoans + afterGraceRepayment
  let dscr :=
    if totalRepaymentObligation = 0 then 0
    else netIncome / totalRepaymentObligation
  { totalIncome := totalIncome
    totalExpenditure := totalExpenditure
    totalProjectIncome := totalProjectIncome
    totalProjectExpenditure := totalProjectExpenditure
    netIncome := netIncome
    monthlyRepayment := currentMonthlyRepayment
    afterGraceRepayment := afterGraceRepayment
    gracePeriodRepayment := gracePeriodRepayment
    dscr := dscr
    incomeTax := monthlyIncomeTax
    maintenanceCost := maintenanceCost
    bankFinanceAmount := bankFinanceAmount }

/-- One step of the tax fold: the accumulation
`if income > mn then acc + min (income - mn) (mx - mn) * rate / 100 else acc`
performed by `calculateIncomeTax` for a single bracket with effective bounds
`mn`, `mx`. -/
def bracketStep (mn mx rate acc income : ℚ) : ℚ :=
  if income > mn then acc + min (income - mn) (mx - mn) * rate / 100 else acc

/-- The spec's tax algorithm (§4.2), stated from the spec's words: the same
ascending accumulation over the five brackets, but with the last bracket
genuinely unbounded, so its taxable amount is the whole `annualIncome - 2400000`
rather than a capped minimum.  Used to compare the source's
`calculateIncomeTax` (which substitutes `Number.MAX_SAFE_INTEGER` for the
infinite upper bound) against the spec. -/
def specIncomeTax (annualIncome : ℚ) : ℚ :=
  let t4 :=
    bracketStep 1800000 2400000 12
      (bracketStep 1200000 1800000 8
        (bracketStep 720000 1200000 (55/10)
          (bracketStep 0 720000 0 0 annualIncome) annualIncome) annualIncome)
      annualIncome
  let t5 :=
    if annualIncome > 2400000 then t4 + (annualIncome - 2400000) * 15 / 100
    else t4
  t5 / 12

/-- The form data with its four income fields replaced by their
scenario-adjusted values from `applyScenarioMultipliers`; every other field is
untouched, which is exactly what claim C6's parenthetical asserts. -/
def withAdjustedIncomes (fd : FormData) (s : Scenario) : FormData :=
  let adj := applyScenarioMultipliers fd s
  { fd with
    salary := adj.adjustedSalary
    rent := adj.adjustedRent
    other := adj.adjustedOther
    projectIncome := adj.adjustedProjectIncome }

/-- Whitespace skipped by JavaScript `parseFloat` before the number. -/
def isSpaceChar (c : Char) : Bool :=
  c == ' ' || c == '\t' || c == '\n' || c == '\r'

/-- The natural number denoted by a list of decimal digit characters. -/
def digitsToNat (ds : List Char) : ℕ :=
  ds.foldl (fun acc c => 10 * acc + (c.toNat - 48)) 0

/-- Model of the JavaScript `parseFloat` builtin used by `getNumericValue`,
restricted to finite decimal literals: skip leading whitespace, read an
optional sign, integer digits, an optional fraction after a point and an
optional exponent, ignoring any trailing garbage; return `none` (the model of
`NaN`) when no digits at all were read. -/
def jsParseFloat (s : String) : Option ℚ :=
  let cs := s.toList.dropWhile isSpaceChar
  let signAndRest : ℚ × List Char :=
    match cs with
    | '-' :: rest => (-1, rest)
    | '+' :: rest => (1, rest)
    | _ => (1, cs)
  let cs1 := signAndRest.2
  let intDigits := cs1.takeWhile Char.isDigit
  let cs2 := cs1.dropWhile Char.isDigit
  let fracAndRest : List Char × List Char :=
    match cs2 with
    | '.' :: rest => (rest.takeWhile Char.isDigit, rest.dropWhile Char.isDigit)
    | _ => ([], cs2)
  let fracDigits := fracAndRest.1
  if intDigits = [] ∧ fracDigits = [] then none
  else
    let mantissa : ℚ :=
      signAndRest.1 *
        ((digitsToNat intDigits : ℚ) +
          (digitsToNat fracDigits : ℚ) / 10 ^ fracDigits.length)
    let expVal : ℤ :=
      match fracAndRest.2 with
      | e :: rest =>
        if e == 'e' || e == 'E' then
          let expSignAndRest : ℤ × List Char :=
            match rest with
            | '-' :: r => (-1, r)
            | '+' :: r => (1, r)
            | _ => (1, rest)
          let expDigits := expSignAndRest.2.takeWhile Char.isDigit
          if expDigits = [] then 0
          else expSignAndRest.1 * (digitsToNat expDigits : ℤ)
        else 0
      | [] => 0
    some (mantissa * 10 ^ expVal)

/-- `getNumericValue`: `parseFloat(value) || 0` followed by an exact decimal
round trip.  The `|| 0` coerces the falsy results of `parseFloat` — `NaN`
(our `none`) and a parsed zero — to `0`; the `Decimal` round trip is the
identity in the exact model. -/
def getNumericValue (value : String) : ℚ :=
  match jsParseFloat value with
  | none => 0
  | some q => if q = 0 then 0 else q

/-- The concrete borrower input of the spec's concrete scenario: salary 80000,
all other incomes and existing loans 0, project cost 1800000, 10% equity, 9%
annual rate, 240-month tenure, no grace period. -/
def formDataC1 : FormData :=
  { salary := 80000, rent := 0, other := 0, projectIncome := 0
    existingLoans := 0, totalProjectCost := 1800000, equityPercentage := 10
    rate := 9, repaymentPeriod := 240, gracePeriod := 0 }

/-!
Helper lemmas shared by the claim theorems.
-/

/-- The two scenario constructors are distinct, as a rewrite rule for the
`if scenario = income_reduce` tests. -/
lemma normal_ne_income_reduce :
    (Scenario.normal = Scenario.income_reduce) = False :=
  eq_false (fun h => Scenario.noConfusion h)

/-- Unfolding the fold of `calculateIncomeTax` over the concrete bracket table
into five `bracketStep` applications. -/
lemma calculateIncomeTax_eq (a : ℚ) :
    calculateIncomeTax a =
      bracketStep 2400000 maxSafeInteger 15
        (bracketStep 1800000 2400000 12
          (bracketStep 1200000 1800000 8
            (bracketStep 720000 1200000 (55/10)
              (bracketStep 0 720000 0 0 a) a) a) a) a / 12 :=
  rfl

/-- A single bracket accumulation is monotone in both the accumulator and the
income, provided the bracket is well formed (`rate ≥ 0`, `mn ≤ mx`). -/
lemma bracketStep_mono {mn mx rate acc1 acc2 a b : ℚ} (hr : 0 ≤ rate)
    (hmx : mn ≤ mx) (hacc : acc1 ≤ acc2) (hab : a ≤ b) :
    bracketStep mn mx rate acc1 a ≤ bracketStep mn mx rate acc2 b := by
  unfold bracketStep
  split_ifs with h1 h2
  · have hmin : min (a - mn) (mx - mn) ≤ min (b - mn) (mx - mn) :=
      min_le_min (by linarith) le_rfl
    have hmul : min (a - mn) (mx - mn) * rate ≤ min (b - mn) (mx - mn) * rate :=
      mul_le_mul_of_nonneg_right hmin hr
    have hdiv : min (a - mn) (mx - mn) * rate / 100
        ≤ min (b - mn) (mx - mn) * rate / 100 :=
      (div_le_div_iff_of_pos_right (by norm_num)).mpr hmul
    linarith
  · exact absurd (lt_of_lt_of_le h1 hab) h2
  · have hminnn : (0:ℚ) ≤ min (b - mn) (mx - mn) :=
      le_min (by linarith) (by linarith)
    have hterm : (0:ℚ) ≤ min (b - mn) (mx - mn) * rate / 100 := by positivity
    linarith
  · exact hacc

/-- The `dscr` field of a calculation result is the zero-guarded quotient of
its `netIncome` field by `existingLoans` plus its `afterGraceRepayment`
field. -/
lemma dscr_spec (fd : FormData) (s : Scenario) (g : Bool) :
    (performCalculations fd s g).dscr =
      if fd.existingLoans + (performCalculations fd s g).afterGraceRepayment = 0
      then 0
      else (performCalculations fd s g).netIncome /
        (fd.existingLoans + (performCalculations fd s g).afterGraceRepayment) :=
  rfl

/-- Claim C1, counterexample to the stated figure: on the concrete scenario
input the after-grace repayment exceeds 14,575.19 by more than 0.25 — the exact
value is 14,575.5604847..., so the claim's `afterGraceRepayment ≈ 14,575.19`
is false at two-decimal (indeed at quarter-unit) tolerance. -/
theorem claim_C1_counterexample :
    1457519/100 + 1/4
      < (performCalculations formDataC1 Scenario.normal true).afterGraceRepayment := by
  norm_num [performCalculations, formDataC1, applyScenarioMultipliers,
    calculateBankFinanceAmount, calculateEMI, normal_ne_income_reduce]

/-- Claim C1 as amended: on the concrete input (salary 80000, cost 1800000,
10% equity, 9% rate, 240 months), scenario `normal` and `graceState = true`,
`performCalculations` returns `bankFinanceAmount = 1620000`,
`totalIncome = 80000`, `totalExpenditure = 28000` (the 35% rate, since
`totalIncome > 25000`), `afterGraceRepayment` within 0.01 of 14,575.56 (not
the claimed 14,575.19), and `dscr = netIncome / afterGraceRepayment`. -/
theorem claim_C1 :
    (performCalculations formDataC1 Scenario.normal true).bankFinanceAmount = 1620000 ∧
    (performCalculations formDataC1 Scenario.normal true).totalIncome = 80000 ∧
    (performCalculations formDataC1 Scenario.normal true).totalExpenditure = 28000 ∧
    (1457556/100 - 1/100
        < (performCalculations formDataC1 Scenario.normal true).afterGraceRepayment ∧
      (performCalculations formDataC1 Scenario.normal true).afterGraceRepayment
        < 1457556/100 + 1/100) ∧
    (performCalculations formDataC1 Scenario.normal true).dscr
      = (performCalculations formDataC1 Scenario.normal true).netIncome
        / (performCalculations formDataC1 Scenario.normal true).afterGraceRepayment := by
  refine ⟨?_, ?_, ?_, ⟨?_, ?_⟩, ?_⟩ <;>
    norm_num [performCalculations, formDataC1, applyScenarioMultipliers,
      calculateBankFinanceAmount, calculateEquityAmount, calculateEMI,
      calculateGracePeriodPayment, calculateIncomeTax, taxBrackets,
      maxSafeInteger, List.foldl_cons, List.foldl_nil, min_def,
      normal_ne_income_reduce]

/-- Claim C2, counterexample to the unbounded last bracket: at an annual income
of 10^16 (above `Number.MAX_SAFE_INTEGER`), the source's `calculateIncomeTax`,
which caps the last bracket at `MAX_SAFE_INTEGER`, differs from the spec's
progressive integration with a genuinely unbounded last bracket. -/
theorem claim_C2_counterexample :
    calculateIncomeTax 10000000000000000 ≠ specIncomeTax 10000000000000000 := by
  rw [calculateIncomeTax_eq]
  norm_num [bracketStep, specIncomeTax, maxSafeInteger, min_def]

/-- Claim C2 as amended: for every annual income between 0 and
`Number.MAX_SAFE_INTEGER`, `calculateIncomeTax` equals the spec's progressive
bracket integration over the five-bracket table, and in particular
`calculateIncomeTax 0 = 0`.  (Above `MAX_SAFE_INTEGER` the code caps the last
bracket, see the counterexample.) -/
theorem claim_C2 :
    (∀ a : ℚ, 0 ≤ a → a ≤ maxSafeInteger →
      calculateIncomeTax a = specIncomeTax a) ∧
    calculateIncomeTax 0 = 0 := by
  constructor
  · intro a _ha hq
    rw [calculateIncomeTax_eq]
    unfold specIncomeTax
    have hm : min (a - 2400000) (maxSafeInteger - 2400000) = a - 2400000 :=
      min_eq_left (sub_le_sub_right hq 2400000)
    unfold bracketStep
    rw [hm]
  · rw [calculateIncomeTax_eq]
    norm_num [bracketStep, maxSafeInteger]

/-- Claim C2 witness: the amended equality applied at the concrete annual
income 960000 (the C1 scenario's annualised income). -/
theorem claim_C2_witness : calculateIncomeTax 960000 = specIncomeTax 960000 :=
  claim_C2.1 960000 (by norm_num) (by norm_num [maxSafeInteger])

/-- Claim C3: at a zero annual rate the EMI is the straight-line payment
`principal / tenure` — the zero-rate branch is taken and the amortization
formula's division never happens. -/
theorem claim_C3 (principal : ℚ) (tenure : ℕ) (_hp : 0 ≤ principal)
    (_hn : 0 < tenure) : calculateEMI principal 0 tenure = principal / tenure := by
  simp [calculateEMI]

/-- Claim C3 witness: `calculateEMI 100 0 4 = 25`. -/
theorem claim_C3_witness : calculateEMI 100 0 4 = 100 / 4 :=
  claim_C3 100 4 (by norm_num) (by norm_num)

/-- Claim C4: the DSCR of `performCalculations` is 0 whenever
`existingLoans + afterGraceRepayment = 0` and is the quotient
`netIncome / (existingLoans + afterGraceRepayment)` otherwise; the division is
only ever taken with a nonzero divisor. -/
theorem claim_C4 (fd : FormData) (s : Scenario) (g : Bool) :
    (fd.existingLoans + (performCalculations fd s g).afterGraceRepayment = 0 →
      (performCalculations fd s g).dscr = 0) ∧
    (fd.existingLoans + (performCalculations fd s g).afterGraceRepayment ≠ 0 →
      (performCalculations fd s g).dscr =
        (performCalculations fd s g).netIncome /
          (fd.existingLoans + (performCalculations fd s g).afterGraceRepayment)) := by
  constructor
  · intro h
    rw [dscr_spec, if_pos h]
  · intro h
    rw [dscr_spec, if_neg h]

/-- Claim C4 witness: on the all-zero input the total repayment obligation is
zero and the DSCR is exactly 0. -/
theorem claim_C4_witness :
    (performCalculations ⟨0,0,0,0,0,0,0,0,0,0⟩ Scenario.normal true).dscr = 0 :=
  (claim_C4 ⟨0,0,0,0,0,0,0,0,0,0⟩ Scenario.normal true).1
    (by norm_num [performCalculations, applyScenarioMultipliers,
      calculateBankFinanceAmount, calculateEMI, normal_ne_income_reduce])

/-- Claim C5: with `graceState = false` the `totalProjectIncome` field is
exactly 0, for every input and scenario. -/
theorem claim_C5 (fd : FormData) (s : Scenario) :
    (performCalculations fd s false).totalProjectIncome = 0 := rfl

/-- Claim C6: for a fixed input and grace state the `bankFinanceAmount` field
is identical between the `normal` and `income_reduce` scenarios, and the
scenario adjustment leaves the cost and equity inputs — and hence the equity
amount — untouched. -/
theorem claim_C6 (fd : FormData) (g : Bool) :
    (performCalculations fd Scenario.normal g).bankFinanceAmount
        = (performCalculations fd Scenario.income_reduce g).bankFinanceAmount ∧
    ∀ s : Scenario,
      (withAdjustedIncomes fd s).totalProjectCost = fd.totalProjectCost ∧
      (withAdjustedIncomes fd s).equityPercentage = fd.equityPercentage ∧
      calculateEquityAmount (withAdjustedIncomes fd s).totalProjectCost
          (withAdjustedIncomes fd s).equityPercentage
        = calculateEquityAmount fd.totalProjectCost fd.equityPercentage :=
  ⟨rfl, fun _ => ⟨rfl, rfl, rfl⟩⟩

/-- Claim C7: the bank finance amount and the equity amount always sum to the
total project cost, exactly in the rational model. -/
theorem claim_C7 (cost equityPct : ℚ) :
    calculateBankFinanceAmount cost equityPct
      + calculateEquityAmount cost equityPct = cost := by
  unfold calculateBankFinanceAmount calculateEquityAmount
  ring

/-- Claim C8: `calculateIncomeTax` is monotone non-decreasing on non-negative
annual incomes. -/
theorem claim_C8 (a b : ℚ) (_ha : 0 ≤ a) (hab : a < b) :
    calculateIncomeTax a ≤ calculateIncomeTax b := by
  have hab2 : a ≤ b := le_of_lt hab
  rw [calculateIncomeTax_eq, calculateIncomeTax_eq]
  refine (div_le_div_iff_of_pos_right (by norm_num)).mpr ?_
  refine bracketStep_mono (by norm_num) (by norm_num [maxSafeInteger]) ?_ hab2
  refine bracketStep_mono (by norm_num) (by norm_num) ?_ hab2
  refine bracketStep_mono (by norm_num) (by norm_num) ?_ hab2
  refine bracketStep_mono (by norm_num) (by norm_num) ?_ hab2
  exact bracketStep_mono (by norm_num) (by norm_num) le_rfl hab2

/-- Claim C8 witness: the tax at the first bracket boundary is at most the tax
at the second. -/
theorem claim_C8_witness :
    calculateIncomeTax 720000 ≤ calculateIncomeTax 1200000 :=
  claim_C8 720000 1200000 (by norm_num) (by norm_num)

/-- Claim C9: `getNumericValue` returns the value parsed by the `parseFloat`
model whenever one exists and exactly 0 on any unparsable string; in
particular the empty string yields 0. -/
theorem claim_C9 (s : String) :
    (∀ q : ℚ, jsParseFloat s = some q → getNumericValue s = q) ∧
    (jsParseFloat s = none → getNumericValue s = 0) ∧
    getNumericValue ("") = 0 := by
  refine ⟨?_, ?_, ?_⟩
  · intro q h
    simp only [getNumericValue, h]
    split_ifs with h0
    · rw [h0]
    · rfl
  · intro h
    simp only [getNumericValue, h]
  · decide

/-- Claim C9 witness: the unparsable string "abc" is normalised to 0. -/
theorem claim_C9_witness : getNumericValue ("abc") = 0 :=
  (claim_C9 ("abc")).2.1 (by decide)

/-- Claim C10: `afterGraceRepayment`, `gracePeriodRepayment` and
`bankFinanceAmount` are identical across all combinations of scenario and
grace state — they are computed only from the unadjusted cost, equity, rate and
tenure inputs. -/
theorem claim_C10 (fd : FormData) (s1 s2 : Scenario) (g1 g2 : Bool) :
    (performCalculations fd s1 g1).afterGraceRepayment
        = (performCalculations fd s2 g2).afterGraceRepayment ∧
    (performCalculations fd s1 g1).gracePeriodRepayment
        = (performCalculations fd s2 g2).gracePeriodRepayment ∧
    (performCalculations fd s1 g1).bankFinanceAmount
        = (performCalculations fd s2 g2).bankFinanceAmount :=
  ⟨rfl, rfl, rfl⟩

end EMICalc
